import Mathlib

/-!
A verification development for the secondary-camera analysis subsystem
(`ai_service/modules/secondary_camera_analyzer.py`, the suppression gate in
`ai_service/modules/multi_camera.py`, and the suppression pass in
`ai_service/main.py`).

Modelling conventions:
* Scores and confidences are exact rationals (`ℚ`); the Python floats in the
  source are decimal literals that rationals represent exactly.
* A decoded frame is its pixel buffer (BGR byte triples) plus dimensions;
  mean brightness, the fixed-point grayscale conversion of `cv2.cvtColor`
  (BGR2GRAY) and the numpy population variance are computed from it.
* Outputs of OpenCV/ML primitives that the analyzer merely consumes
  (contours with their areas/bounding rectangles/convexity-defect counts,
  object/face classifier detections, Laplacian blur score, `np.std` contrast,
  Hough horizontal-line count) enter the model as oracle inputs; all the
  filtering, scoring, fusion and decision logic applied to them is embedded
  from the source.
* A Python exception inside a stage is an `err : Option String` oracle field
  (`some msg` means the stage body raised with that message); the `except`
  branches of the source are embedded as the corresponding error results.
* Dict keys that a given code path leaves absent are `Option` fields set to
  `none` on that path.
-/

/-- One BGR pixel of a decoded frame (uint8 channels). -/
structure Pixel where
  b : ℕ
  g : ℕ
  r : ℕ
deriving Repr, DecidableEq

/-- A decoded frame: dimensions plus the pixel buffer. -/
structure Frame where
  width : ℕ
  height : ℕ
  pixels : List Pixel
deriving Repr, DecidableEq

/-- Sum of all channel values of the frame. -/
def channelSum (f : Frame) : ℕ :=
  (f.pixels.map (fun p => p.b + p.g + p.r)).sum

/-- `np.mean(frame)`: mean over every channel value of the H×W×3 buffer. -/
def meanBrightness (f : Frame) : ℚ :=
  (channelSum f : ℚ) / (3 * f.pixels.length)

/-- `cv2.cvtColor(..., cv2.COLOR_BGR2GRAY)` on a uint8 image: OpenCV's
fixed-point luma, `(R*4899 + G*9617 + B*1868 + 2^13) >> 14`. -/
def grayVal (p : Pixel) : ℕ :=
  (4899 * p.r + 9617 * p.g + 1868 * p.b + 8192) / 16384

/-- `np.var`: population variance, the mean of squared deviations. -/
def npVar (xs : List ℚ) : ℚ :=
  let n : ℚ := xs.length
  let m : ℚ := xs.sum / n
  (xs.map (fun x => (x - m) ^ 2)).sum / n

/-- Variance of the grayscale conversion of the frame. -/
def grayVariance (f : Frame) : ℚ :=
  npVar (f.pixels.map (fun p => (grayVal p : ℚ)))

/-- `_is_black_or_invalid_frame`: mean brightness below 10, or grayscale
variance below 10, classifies the frame as degenerate. -/
def is_black_or_invalid_frame (f : Frame) : Bool :=
  decide (meanBrightness f < 10) || decide (grayVariance f < 10)

/-- One object-classifier detection (keys class, confidence, box);
`box` is absent in some formats, hence `Option`. -/
structure Detection where
  cls : String
  confidence : ℚ
  box : Option (ℚ × ℚ × ℚ × ℚ)
deriving Repr, DecidableEq

/-- A `keyboard_like_regions` entry; `detection_method` is only present on
the hand-inference fallback entry. -/
structure KeyboardRegion where
  bbox : ℕ × ℕ × ℕ × ℕ
  area : ℚ
  aspect : ℚ
  confidence : ℚ
  detection_method : Option String
deriving Repr, DecidableEq

/-- A hand candidate position (normalized, as built in the source). -/
structure HandPosition where
  center : ℚ × ℚ
  bbox : ℚ × ℚ × ℚ × ℚ
  area_frac : ℚ
deriving Repr, DecidableEq

/-- Result record of `_analyze_hand_placement`. -/
structure HandPlacementResult where
  hands_detected : ℕ
  hands_visible : Bool
  hand_positions : List HandPosition
  total_hand_area : ℚ
  hands_in_typing_position : Bool
  confidence : ℚ
  analysis_quality : String
  error : Option String
deriving Repr, DecidableEq

/-- Result record of `_analyze_keyboard_visibility`. -/
structure KeyboardVisibilityResult where
  keyboard_visible : Bool
  keyboard_detections : List Detection
  keyboard_like_regions : List KeyboardRegion
  positioning_score : ℚ
  confidence : ℚ
  analysis_quality : String
  detection_method : Option String
  error : Option String
deriving Repr, DecidableEq

/-- The inner `face_coverage` record of `_analyze_face_coverage`. -/
structure FaceCoverageInfo where
  faces_in_secondary_view : ℕ
  appropriate_coverage : Bool
  coverage_quality : String
deriving Repr, DecidableEq

/-- Raw face-classifier output consumed by `_analyze_face_coverage`
(violations are represented by their type strings). -/
structure FaceResults where
  faces_detected : ℕ
  violations : List String
  confidence : ℚ
deriving Repr, DecidableEq

/-- Result record of `_analyze_face_coverage`. -/
structure FaceCoverageResult where
  face_coverage : FaceCoverageInfo
  face_detection_results : Option FaceResults
  confidence : ℚ
  analysis_quality : String
  error : Option String
deriving Repr, DecidableEq

/-- `lighting_quality` record (brightness/contrast keys absent on the
black-screen and stage-error paths). -/
structure LightingQuality where
  brightness : Option ℚ
  contrast : Option ℚ
  quality_score : ℚ
deriving Repr, DecidableEq

/-- `image_quality` record. -/
structure ImageQuality where
  blur_score : Option ℚ
  is_sharp : Bool
  aspect : Option ℚ
deriving Repr, DecidableEq

/-- `_detect_workspace_elements` output. -/
structure WorkspaceElements where
  desk_surface_visible : Bool
  horizontal_lines_detected : ℕ
  workspace_structure_score : ℚ
deriving Repr, DecidableEq

/-- Result record of `_analyze_workspace_compliance`. -/
structure WorkspaceComplianceResult where
  lighting_quality : LightingQuality
  image_quality : ImageQuality
  workspace_elements : Option WorkspaceElements
  prohibited_objects : List Detection
  compliance_score : ℚ
  analysis_quality : String
  error : Option String
deriving Repr, DecidableEq

/-- `component_scores` of the overall compliance record. -/
structure ComponentScores where
  hands : ℚ
  keyboard : ℚ
  face : ℚ
  workspace : ℚ
deriving Repr, DecidableEq

/-- Result record of `_calculate_overall_compliance`. -/
structure OverallComplianceResult where
  overall_score : ℚ
  status : String
  component_scores : ComponentScores
deriving Repr, DecidableEq

/-- The per-frame analysis record stored in the history and returned in the
bundle (the `timestamp` key, an ambient clock read, is not modelled). -/
structure AnalysisResult where
  hand_placement : HandPlacementResult
  keyboard_visibility : KeyboardVisibilityResult
  face_coverage : FaceCoverageResult
  workspace_compliance : WorkspaceComplianceResult
  overall_compliance : OverallComplianceResult
deriving Repr, DecidableEq

/-- `violation_prevention` record; `score` and `prevention_effectiveness`
are absent in the total-failure bundle. -/
structure RiskInfo where
  risk_level : String
  confidence : ℚ
  score : Option ℚ
  prevention_effectiveness : Option ℚ
deriving Repr, DecidableEq

/-- The result bundle `analyze_secondary_camera_frame` returns. -/
structure Bundle where
  status : String
  error : Option String
  analysis : Option AnalysisResult
  recommendations : List String
  violation_prevention : RiskInfo
  stability_score : Option ℚ
deriving Repr, DecidableEq

/-- `_assess_violation_risk`: risk tier and confidence from the bundle's
overall score; score and prevention_effectiveness echo the overall score. -/
def assess_violation_risk (a : AnalysisResult) : RiskInfo :=
  let s := a.overall_compliance.overall_score
  if s ≥ 1/2 then ⟨"low", 9/10, some s, some s⟩
  else if s ≥ 3/10 then ⟨"medium", 8/10, some s, some s⟩
  else if s ≥ 2/10 then ⟨"high", 7/10, some s, some s⟩
  else ⟨"very_high", 9/10, some s, some s⟩

/-- `should_suppress_violations` of `multi_camera.py`: no cached bundle means
no suppression; otherwise suppress iff the cached risk level is low or medium
and its confidence is at least 0.7. -/
def should_suppress_violations (cache : Option Bundle) : Bool :=
  match cache with
  | none => false
  | some b =>
    let vp := b.violation_prevention
    (decide (vp.risk_level = "low") || decide (vp.risk_level = "medium")) &&
      decide (vp.confidence ≥ 7/10)

/-- A skin-mask contour as OpenCV reports it: area (`cv2.contourArea`),
convexity-defect count (0 when `cv2.convexityDefects` returns None) and
bounding rectangle (`cv2.boundingRect`). -/
structure Contour where
  area : ℚ
  defects : ℕ
  x : ℕ
  y : ℕ
  w : ℕ
  h : ℕ
deriving Repr, DecidableEq

/-- Oracle for the hand stage: the contours the skin segmentation produced,
and whether the stage body raised. -/
structure HandOracle where
  contours : List Contour
  err : Option String
deriving Repr, DecidableEq

/-- `_check_typing_position`: at least one hand center in the lower 60% of
the frame (normalized y strictly above 0.4). -/
def check_typing_position (hand_positions : List HandPosition) : Bool :=
  if hand_positions.length < 1 then false
  else (hand_positions.filter (fun p => decide (p.center.2 > 2/5))).length ≥ 1

/-- `_analyze_hand_placement`: filter skin contours by area and convexity,
normalize positions, decide typing position and grade confidence. -/
def analyze_hand_placement (f : Frame) (o : HandOracle) : HandPlacementResult :=
  match o.err with
  | some e =>
    { hands_detected := 0, hands_visible := false, hand_positions := [],
      total_hand_area := 0, hands_in_typing_position := false, confidence := 0,
      analysis_quality := "error", error := some e }
  | none =>
    let frame_area : ℚ := (f.height : ℚ) * (f.width : ℚ)
    let min_area : ℚ := frame_area * (2/1000)
    let max_area : ℚ := frame_area * (8/10)
    let hand_contours := o.contours.filter (fun c =>
      decide (min_area < c.area) && decide (c.area < max_area) &&
        (decide (1 ≤ c.defects) || decide (frame_area * (5/100) < c.area)))
    let hand_positions := hand_contours.map (fun c =>
      let cx : ℕ := c.x + c.w / 2
      let cy : ℕ := c.y + c.h / 2
      { center := ((cx : ℚ) / f.width, (cy : ℚ) / f.height),
        bbox := ((c.x : ℚ) / f.width, (c.y : ℚ) / f.height,
                 (c.w : ℚ) / f.width, (c.h : ℚ) / f.height),
        area_frac := c.area / ((f.width : ℚ) * (f.height : ℚ)) })
    let hands_detected := hand_contours.length
    let total_hand_area := (hand_positions.map (fun p => p.area_frac)).sum
    let hands_in_typing_position := check_typing_position hand_positions
    let confidence : ℚ :=
      if hands_detected > 0 ∧ hands_in_typing_position then 9/10
      else if hands_detected > 0 then 7/10
      else 0
    { hands_detected := hands_detected,
      hands_visible := hands_detected > 0,
      hand_positions := hand_positions,
      total_hand_area := total_hand_area,
      hands_in_typing_position := hands_in_typing_position,
      confidence := confidence,
      analysis_quality := if hands_detected ≥ 1 then "good" else "poor",
      error := none }

/-- An edge contour as the keyboard stage sees it: area, vertex count of the
polygon approximation, and bounding rectangle. -/
structure EdgeContour where
  area : ℚ
  approxVertices : ℕ
  x : ℕ
  y : ℕ
  w : ℕ
  h : ℕ
deriving Repr, DecidableEq

/-- Oracle for the keyboard stage: object-classifier detections (with a flag
for the inner try/except around the classifier call, whose failure just
leaves the detection list empty), Canny edge contours, and whether the
stage body raised. -/
structure KeyboardOracle where
  objectDetections : List Detection
  objectError : Bool
  edgeContours : List EdgeContour
  err : Option String
deriving Repr, DecidableEq

/-- `term in s` for Python strings: `t` occurs as a substring of `s`. -/
def containsTerm (s t : String) : Bool :=
  (s.splitOn t).length ≥ 2

/-- The detection-class filter of the keyboard stage:
`any(term in class.lower() for term in ['laptop', 'keyboard'])`. -/
def isKeyboardClass (cls : String) : Bool :=
  containsTerm cls.toLower "laptop" || containsTerm cls.toLower "keyboard"

/-- The classifier-signal half of the keyboard stage: detections kept when
their class mentions laptop or keyboard (an inner classifier exception just
leaves the list empty). -/
def keyboard_detections_of (o : KeyboardOracle) : List Detection :=
  (if o.objectError then [] else o.objectDetections).filter
    (fun d => isKeyboardClass d.cls)

/-- The edge-heuristic half of the keyboard stage: contours covering over 1%
of the frame, roughly rectangular (at least 4 approximation vertices) with
aspect ratio in (1.2, 8). -/
def keyboard_like_regions_of (f : Frame) (o : KeyboardOracle) :
    List KeyboardRegion :=
  let frame_area : ℚ := (f.height : ℚ) * (f.width : ℚ)
  (o.edgeContours.filter (fun c =>
      decide (c.area > frame_area * (1/100)) && decide (c.approxVertices ≥ 4))).filterMap
    (fun c =>
      let aspect : ℚ := (c.w : ℚ) / (c.h : ℚ)
      if 12/10 < aspect ∧ aspect < 8 then
        some { bbox := (c.x, c.y, c.w, c.h), area := c.area, aspect := aspect,
               confidence := min 1 (c.area / (frame_area * (1/10))),
               detection_method := none }
      else none)

/-- The positioning-score loops of the keyboard stage: prefer detections and
regions whose vertical center falls in the lower 60% of the frame. -/
def keyboard_positioning_fold (f : Frame) (dets : List Detection)
    (regions : List KeyboardRegion) : ℚ :=
  let p1 := dets.foldl (fun acc d =>
    match d.box with
    | some (_, y1, _, y2) =>
      if (y1 + y2) / 2 > (f.height : ℚ) * (2/5) then max acc d.confidence else acc
    | none => max acc (8/10)) 0
  regions.foldl (fun acc r =>
    let cy : ℚ := (r.bbox.2.1 : ℚ) + (r.bbox.2.2.2 : ℚ) / 2
    if cy > (f.height : ℚ) * (2/5) then max acc r.confidence else acc) p1

/-- The placeholder region the hand-inference fallback appends. -/
def hand_inference_region : KeyboardRegion :=
  { bbox := (0, 0, 0, 0), area := 0, aspect := 0, confidence := 1/2,
    detection_method := some "hand_inference" }

/-- `_analyze_keyboard_visibility`: OR-combine classifier detections and the
edge/rectangle heuristic, score positioning, and apply the hand-inference
fallback when neither source fired. -/
def analyze_keyboard_visibility (f : Frame) (o : KeyboardOracle) :
    KeyboardVisibilityResult :=
  match o.err with
  | some e =>
    { keyboard_visible := false, keyboard_detections := [],
      keyboard_like_regions := [], positioning_score := 0, confidence := 0,
      analysis_quality := "error", detection_method := none, error := some e }
  | none =>
    let keyboard_detections := keyboard_detections_of o
    let keyboard_like_regions := keyboard_like_regions_of f o
    let keyboard_visible0 := !keyboard_detections.isEmpty || !keyboard_like_regions.isEmpty
    let positioning0 : ℚ :=
      if keyboard_visible0 then
        keyboard_positioning_fold f keyboard_detections keyboard_like_regions
      else 0
    let pair1 : Bool × ℚ :=
      if !keyboard_visible0 && !keyboard_like_regions.isEmpty then (true, 6/10)
      else (keyboard_visible0, positioning0)
    let triple2 : Bool × ℚ × List KeyboardRegion :=
      if !pair1.1 then
        (true, 1/2, keyboard_like_regions ++ [hand_inference_region])
      else (pair1.1, pair1.2, keyboard_like_regions)
    { keyboard_visible := triple2.1,
      keyboard_detections := keyboard_detections,
      keyboard_like_regions := triple2.2.2,
      positioning_score := triple2.2.1,
      confidence :=
        ((keyboard_detections.map (fun d : Detection => d.confidence)) ++
          (triple2.2.2.map (fun r : KeyboardRegion => r.confidence)) ++
          ([0] : List ℚ)).foldl max 0,
      analysis_quality := if triple2.1 then "good" else "needs_adjustment",
      detection_method :=
        some (if keyboard_detections.any (fun d => containsTerm d.cls.toLower "laptop")
              then "laptop_detection" else "keyboard_detection"),
      error := none }

/-- Oracle for the face stage: the face classifier's output, and whether the
stage body (encode + classifier call) raised. -/
structure FaceOracle where
  results : FaceResults
  err : Option String
deriving Repr, DecidableEq

/-- `_analyze_face_coverage`: interpret the face classifier's output for
secondary-view appropriateness; failure fails open. -/
def analyze_face_coverage (o : FaceOracle) : FaceCoverageResult :=
  match o.err with
  | some e =>
    { face_coverage :=
        { faces_in_secondary_view := 0, appropriate_coverage := true,
          coverage_quality := "unknown" },
      face_detection_results := none, confidence := 0,
      analysis_quality := "error", error := some e }
  | none =>
    let r := o.results
    let info : FaceCoverageInfo :=
      if r.faces_detected > 0 then
        if r.violations.isEmpty then
          { faces_in_secondary_view := r.faces_detected,
            appropriate_coverage := false, coverage_quality := "too_detailed" }
        else
          { faces_in_secondary_view := r.faces_detected,
            appropriate_coverage := true, coverage_quality := "appropriate" }
      else
        { faces_in_secondary_view := r.faces_detected,
          appropriate_coverage := true, coverage_quality := "none" }
    { face_coverage := info, face_detection_results := some r,
      confidence := r.confidence, analysis_quality := "good", error := none }

/-- Oracle for the workspace stage: `np.std` contrast, Laplacian blur score
and Hough near-horizontal line count (OpenCV/numpy primitives), and whether
the stage body raised. -/
structure WorkspaceOracle where
  contrast : ℚ
  blur_score : ℚ
  horizontal_lines : ℕ
  err : Option String
deriving Repr, DecidableEq

/-- `_detect_workspace_elements`: desk-structure heuristic over the
near-horizontal Hough line count. -/
def detect_workspace_elements (o : WorkspaceOracle) : WorkspaceElements :=
  { desk_surface_visible := o.horizontal_lines > 2,
    horizontal_lines_detected := o.horizontal_lines,
    workspace_structure_score := min 1 ((o.horizontal_lines : ℚ) / 10) }

/-- `_calculate_lighting_score`. -/
def calculate_lighting_score (brightness contrast : ℚ) : ℚ :=
  let brightness_score := max 0 (1 - |brightness - 130| / 130)
  let contrast_score := min 1 (contrast / 50)
  (brightness_score + contrast_score) / 2

/-- `_calculate_workspace_compliance_score`. -/
def calculate_workspace_compliance_score (brightness contrast blur : ℚ)
    (we : WorkspaceElements) (detections : List Detection) : ℚ :=
  let lighting_score := calculate_lighting_score brightness contrast
  let sharpness_score : ℚ := if blur > 100 then 1 else blur / 100
  let workspace_score := we.workspace_structure_score
  let prohibited_penalty : ℚ := (detections.length : ℚ) * (2/10)
  max 0 ((lighting_score + sharpness_score + workspace_score) / 3 - prohibited_penalty)

/-- `_analyze_workspace_compliance` (the source hardcodes the prohibited
object scan off: `object_results = {'detections': [], 'status': 'clear'}`). -/
def analyze_workspace_compliance (f : Frame) (o : WorkspaceOracle) :
    WorkspaceComplianceResult :=
  match o.err with
  | some e =>
    { lighting_quality := { brightness := none, contrast := none, quality_score := 0 },
      image_quality := { blur_score := none, is_sharp := false, aspect := none },
      workspace_elements := none, prohibited_objects := [], compliance_score := 0,
      analysis_quality := "error", error := some e }
  | none =>
    let brightness := meanBrightness f
    let we := detect_workspace_elements o
    { lighting_quality :=
        { brightness := some brightness, contrast := some o.contrast,
          quality_score := calculate_lighting_score brightness o.contrast },
      image_quality :=
        { blur_score := some o.blur_score, is_sharp := decide (o.blur_score > 100),
          aspect := some ((f.width : ℚ) / (f.height : ℚ)) },
      workspace_elements := some we,
      prohibited_objects := [],
      compliance_score :=
        calculate_workspace_compliance_score brightness o.contrast o.blur_score we [],
      analysis_quality := "good", error := none }

/-- `_calculate_overall_compliance`: weighted fusion of the four detectors. -/
def calculate_overall_compliance (h : HandPlacementResult)
    (k : KeyboardVisibilityResult) (fc : FaceCoverageResult)
    (w : WorkspaceComplianceResult) : OverallComplianceResult :=
  let hand_score : ℚ := if h.hands_visible then h.confidence else 0
  let keyboard_score : ℚ := if k.keyboard_visible then k.confidence else 0
  let face_score : ℚ := if fc.face_coverage.appropriate_coverage then 1 else 1/2
  let workspace_score := w.compliance_score
  let overall_score :=
    hand_score * (3/10) + keyboard_score * (3/10) +
      face_score * (2/10) + workspace_score * (2/10)
  { overall_score := overall_score,
    status :=
      if overall_score ≥ 6/10 then "excellent"
      else if overall_score ≥ 4/10 then "good"
      else if overall_score ≥ 3/10 then "acceptable"
      else "needs_improvement",
    component_scores :=
      { hands := hand_score, keyboard := keyboard_score,
        face := face_score, workspace := workspace_score } }

/-- `_generate_recommendations`. -/
def generate_recommendations (a : AnalysisResult) : List String :=
  let r1 : List String :=
    if ¬a.hand_placement.hands_visible then
      ["Ensure your hands are visible in the secondary camera view"]
    else if ¬a.hand_placement.hands_in_typing_position then
      ["Position your hands in the typing area for better monitoring"]
    else []
  let r2 : List String :=
    if ¬a.keyboard_visibility.keyboard_visible then
      ["Adjust camera angle to show your keyboard clearly"]
    else if a.keyboard_visibility.positioning_score < 1/2 then
      ["Position keyboard in the lower portion of the camera view"]
    else []
  let r3 : List String :=
    if a.face_coverage.face_coverage.coverage_quality = "too_detailed" then
      ["Adjust secondary camera to show less facial detail (profile view is better)"]
    else []
  let r4 : List String :=
    if a.workspace_compliance.lighting_quality.quality_score < 6/10 then
      ["Improve lighting in your workspace for better monitoring"]
    else []
  let r5 : List String :=
    if ¬a.workspace_compliance.image_quality.is_sharp then
      ["Ensure camera is stable and focused for clear image quality"]
    else []
  let recs := r1 ++ r2 ++ r3 ++ r4 ++ r5
  if recs.isEmpty then ["Secondary camera setup looks good!"] else recs

/-- A violation record as the pipeline builds it (`suppressed` and
`suppression_reason` are absent from fresh records: `false`/`none`, matching
the `.get('suppressed', False)` reads). -/
structure Violation where
  vtype : String
  severity : String
  confidence : ℚ
  message : Option String
  source : Option String
  suppressed : Bool
  suppression_reason : Option String
deriving Repr, DecidableEq

/-- The rule body of `generate_secondary_camera_violations`, applied to a
successful bundle's analysis record. -/
def violationRules (a : AnalysisResult) : List Violation :=
  (if ¬a.hand_placement.hands_visible then
    [{ vtype := "secondary_camera_hands_not_visible", severity := "high",
       confidence := 9/10,
       message := some "Hands not visible in secondary camera view",
       source := some "secondary_camera", suppressed := false,
       suppression_reason := none }]
   else []) ++
  (if ¬a.keyboard_visibility.keyboard_visible then
    [{ vtype := "secondary_camera_keyboard_not_visible", severity := "high",
       confidence := 9/10,
       message := some "Keyboard not visible in secondary camera view",
       source := some "secondary_camera", suppressed := false,
       suppression_reason := none }]
   else []) ++
  (if a.face_coverage.face_coverage.coverage_quality = "too_detailed" then
    [{ vtype := "secondary_camera_excessive_face_detail", severity := "medium",
       confidence := 8/10,
       message := some "Secondary camera showing too much facial detail",
       source := some "secondary_camera", suppressed := false,
       suppression_reason := none }]
   else []) ++
  (if a.workspace_compliance.compliance_score < 4/10 then
    [{ vtype := "secondary_camera_workspace_non_compliant", severity := "medium",
       confidence := 7/10,
       message := some "Workspace setup not compliant in secondary camera view",
       source := some "secondary_camera", suppressed := false,
       suppression_reason := none }]
   else []) ++
  (if a.hand_placement.hands_visible ∧ ¬a.hand_placement.hands_in_typing_position then
    [{ vtype := "secondary_camera_hands_not_in_typing_position",
       severity := "medium", confidence := 6/10,
       message := some "Hands not positioned appropriately for typing",
       source := some "secondary_camera", suppressed := false,
       suppression_reason := none }]
   else [])

/-- `generate_secondary_camera_violations`: no violations unless the bundle
is a successful one carrying an analysis record. -/
def generate_secondary_camera_violations (b : Bundle) : List Violation :=
  if b.status ≠ "success" then []
  else
    match b.analysis with
    | none => []
    | some a => violationRules a

/-- `_update_analysis_history`: append, then evict the oldest entry when the
buffer exceeds its capacity of 10. -/
def update_analysis_history (hist : List AnalysisResult) (a : AnalysisResult) :
    List AnalysisResult :=
  let h := hist ++ [a]
  if h.length > 10 then h.drop 1 else h

/-- `_calculate_stability_score`: 0.5 with fewer than 3 history entries,
otherwise `max(0, 1 − variance(last 5 overall scores) * 2)`. -/
def calculate_stability_score (hist : List AnalysisResult) : ℚ :=
  if hist.length < 3 then 1/2
  else
    let scores := (hist.drop (hist.length - 5)).map
      (fun a => a.overall_compliance.overall_score)
    if scores.isEmpty then 1/2
    else max 0 (1 - npVar scores * 2)

/-- Oracle bundle for one analyzed frame: the primitive outputs each stage
consumes. -/
structure Oracle where
  hand : HandOracle
  keyboard : KeyboardOracle
  face : FaceOracle
  workspace : WorkspaceOracle
deriving Repr, DecidableEq

/-- The analysis record of the fixed black-screen bundle. -/
def blackScreenAnalysis : AnalysisResult :=
  { hand_placement :=
      { hands_detected := 0, hands_visible := false, hand_positions := [],
        total_hand_area := 0, hands_in_typing_position := false,
        confidence := 0, analysis_quality := "black_screen", error := none },
    keyboard_visibility :=
      { keyboard_visible := false, keyboard_detections := [],
        keyboard_like_regions := [], positioning_score := 0, confidence := 0,
        analysis_quality := "black_screen", detection_method := none,
        error := none },
    face_coverage :=
      { face_coverage :=
          { faces_in_secondary_view := 0, appropriate_coverage := false,
            coverage_quality := "black_screen" },
        face_detection_results := none, confidence := 0,
        analysis_quality := "black_screen", error := none },
    workspace_compliance :=
      { lighting_quality := { brightness := none, contrast := none, quality_score := 0 },
        image_quality := { blur_score := none, is_sharp := false, aspect := none },
        workspace_elements := none, prohibited_objects := [],
        compliance_score := 0, analysis_quality := "black_screen", error := none },
    overall_compliance :=
      { overall_score := 0, status := "black_screen",
        component_scores := { hands := 0, keyboard := 0, face := 0, workspace := 0 } } }

/-- The fixed bundle returned for a degenerate (black / low-variance)
frame. -/
def blackScreenBundle : Bundle :=
  { status := "success", error := none,
    analysis := some blackScreenAnalysis,
    recommendations :=
      ["Camera appears to be showing a black screen - please check camera positioning and lighting"],
    violation_prevention :=
      { risk_level := "very_high", confidence := 9/10, score := some 0,
        prevention_effectiveness := some 0 },
    stability_score := some 0 }

/-- The bundle returned when the whole analysis fails (decode error or a
top-level exception). -/
def errorBundle (e : String) : Bundle :=
  { status := "error", error := some e, analysis := none,
    recommendations := ["Unable to analyze secondary camera feed"],
    violation_prevention :=
      { risk_level := "unknown", confidence := 0, score := none,
        prevention_effectiveness := none },
    stability_score := none }

/-- `analyze_secondary_camera_frame`, with `_decode_image`'s outcome as an
`Except` (its exceptions surface as the top-level error bundle) and the
analyzer's history buffer passed and returned explicitly. -/
def analyze_secondary_camera_frame (frameE : Except String Frame) (o : Oracle)
    (hist : List AnalysisResult) : Bundle × List AnalysisResult :=
  match frameE with
  | .error e => (errorBundle e, hist)
  | .ok frame =>
    if is_black_or_invalid_frame frame then (blackScreenBundle, hist)
    else
      let hand_analysis := analyze_hand_placement frame o.hand
      let keyboard_analysis := analyze_keyboard_visibility frame o.keyboard
      let face_analysis := analyze_face_coverage o.face
      let workspace_analysis := analyze_workspace_compliance frame o.workspace
      let overall_compliance := calculate_overall_compliance
        hand_analysis keyboard_analysis face_analysis workspace_analysis
      let analysis_result : AnalysisResult :=
        { hand_placement := hand_analysis,
          keyboard_visibility := keyboard_analysis,
          face_coverage := face_analysis,
          workspace_compliance := workspace_analysis,
          overall_compliance := overall_compliance }
      let hist2 := update_analysis_history hist analysis_result
      ({ status := "success", error := none,
         analysis := some analysis_result,
         recommendations := generate_recommendations analysis_result,
         violation_prevention := assess_violation_risk analysis_result,
         stability_score := some (calculate_stability_score hist2) },
       hist2)

/-- The suppression pass of `process_video_frame` in `main.py`: when the gate
is active, tag every violation not sourced from the secondary camera as
suppressed (the list itself is kept whole). -/
def applySuppression (active : Bool) (violations : List Violation) :
    List Violation :=
  if active then
    violations.map (fun v =>
      if v.source ≠ some "secondary_camera" then
        { v with suppressed := true,
                 suppression_reason := some "secondary_camera_ai_validation" }
      else v)
  else violations

/-- The `active_violations` view of `process_video_frame`: the violations not
tagged as suppressed. -/
def activeViolations (violations : List Violation) : List Violation :=
  violations.filter (fun v => !v.suppressed)

/-! ### Concrete inputs used by witnesses and counterexamples -/

/-- A 1×1 all-black frame. -/
def blackFrame : Frame :=
  { width := 1, height := 1, pixels := [⟨0, 0, 0⟩] }

/-- A 2×2 frame, half black and half white pixels: bright and
high-variance, so it is not classified as degenerate. -/
def demoFrame : Frame :=
  { width := 2, height := 2,
    pixels := [⟨0, 0, 0⟩, ⟨0, 0, 0⟩, ⟨255, 255, 255⟩, ⟨255, 255, 255⟩] }

/-- A hand oracle with one accepted skin contour whose center sits in the
upper 40% of the frame: hands visible, but not in typing position. -/
def noTypingHandOracle : HandOracle :=
  { contours := [⟨1, 1, 0, 0, 1, 1⟩], err := none }

/-- A keyboard oracle on which neither detection source fires: no classifier
detections and no edge contours. -/
def emptyKeyboardOracle : KeyboardOracle :=
  { objectDetections := [], objectError := false, edgeContours := [], err := none }

/-- A face oracle reporting no faces. -/
def noFaceOracle : FaceOracle :=
  { results := ⟨0, [], 1/2⟩, err := none }

/-- A well-lit, sharp workspace oracle. -/
def demoWorkspaceOracle : WorkspaceOracle :=
  { contrast := 50, blur_score := 150, horizontal_lines := 5, err := none }

/-- An oracle for a frame with visible but non-typing hands and no keyboard
signal from either source. -/
def noTypingOracle : Oracle :=
  { hand := noTypingHandOracle, keyboard := emptyKeyboardOracle,
    face := noFaceOracle, workspace := demoWorkspaceOracle }

/-- A bundle whose cached risk assessment is low-risk at confidence 0.8. -/
def lowRiskBundle : Bundle :=
  { status := "success", error := none, analysis := none, recommendations := [],
    violation_prevention :=
      { risk_level := "low", confidence := 8/10, score := some (3/5),
        prevention_effectiveness := some (3/5) },
    stability_score := some (1/2) }

/-! ### Helper lemmas -/

/-- Population variance is nonnegative. -/
theorem npVar_nonneg (xs : List ℚ) : 0 ≤ npVar xs := by
  unfold npVar
  apply div_nonneg
  · apply List.sum_nonneg
    intro x hx
    simp only [List.mem_map] at hx
    obtain ⟨y, _, rfl⟩ := hx
    positivity
  · exact_mod_cast Nat.zero_le _

/-- One history update keeps the buffer within its capacity of 10. -/
theorem update_analysis_history_length (hist : List AnalysisResult)
    (a : AnalysisResult) (h : hist.length ≤ 10) :
    (update_analysis_history hist a).length ≤ 10 := by
  unfold update_analysis_history
  dsimp only
  split <;> simp_all

/-- Folding history updates from the empty buffer keeps it within 10. -/
theorem foldl_update_analysis_history_length (init : List AnalysisResult)
    (entries : List AnalysisResult) (h : init.length ≤ 10) :
    (entries.foldl update_analysis_history init).length ≤ 10 := by
  induction entries generalizing init with
  | nil => simpa using h
  | cons a rest ih =>
    exact ih _ (update_analysis_history_length init a h)

/-- The risk assessment's confidence is always at least 0.7. -/
theorem assess_violation_risk_confidence_ge (a : AnalysisResult) :
    7/10 ≤ (assess_violation_risk a).confidence := by
  unfold assess_violation_risk
  dsimp only
  split_ifs <;> norm_num

/-- On a cached bundle whose confidence already clears 0.7, the gate reduces
to the risk-level test. -/
theorem gate_of_confident (b : Bundle)
    (h : 7/10 ≤ b.violation_prevention.confidence) :
    (should_suppress_violations (some b) = true ↔
      (b.violation_prevention.risk_level = "low" ∨
       b.violation_prevention.risk_level = "medium")) := by
  simp [should_suppress_violations, h]

/-! ### Claim theorems -/

/-- Claim C1: for every cached secondary-camera analysis bundle, with a
risk level drawn from the full grid (low, medium, high, very_high,
unknown) and a confidence in [0, 1], `should_suppress_violations` returns
true if and only if the risk level is low or medium and the confidence is at
least 0.7. -/
theorem claim_C1_suppression_gate (b : Bundle)
    (hgrid : b.violation_prevention.risk_level ∈
      (["low", "medium", "high", "very_high", "unknown"] : List String))
    (h0 : 0 ≤ b.violation_prevention.confidence)
    (h1 : b.violation_prevention.confidence ≤ 1) :
    should_suppress_violations (some b) = true ↔
      ((b.violation_prevention.risk_level = "low" ∨
        b.violation_prevention.risk_level = "medium") ∧
       b.violation_prevention.confidence ≥ 7/10) := by
  simp [should_suppress_violations]

/-- Witness for claim C1 at a concrete cached bundle (low risk at
confidence 0.8): the gate fires. -/
theorem claim_C1_suppression_gate_witness :
    should_suppress_violations (some lowRiskBundle) = true :=
  (claim_C1_suppression_gate lowRiskBundle (by decide)
    (by norm_num [lowRiskBundle]) (by norm_num [lowRiskBundle])).mpr
    ⟨Or.inl rfl, by norm_num [lowRiskBundle]⟩

/-- Claim C5: the risk assessment is a deterministic function of the
analysis record's overall score with the tier thresholds 0.5 / 0.3 / 0.2,
and both the returned score and prevention_effectiveness echo the overall
score. -/
theorem claim_C5_risk_tiers (a : AnalysisResult) :
    (assess_violation_risk a).score = some a.overall_compliance.overall_score ∧
    (assess_violation_risk a).prevention_effectiveness =
      some a.overall_compliance.overall_score ∧
    (1/2 ≤ a.overall_compliance.overall_score →
      (assess_violation_risk a).risk_level = "low" ∧
      (assess_violation_risk a).confidence = 9/10) ∧
    (3/10 ≤ a.overall_compliance.overall_score ∧
        a.overall_compliance.overall_score < 1/2 →
      (assess_violation_risk a).risk_level = "medium" ∧
      (assess_violation_risk a).confidence = 8/10) ∧
    (2/10 ≤ a.overall_compliance.overall_score ∧
        a.overall_compliance.overall_score < 3/10 →
      (assess_violation_risk a).risk_level = "high" ∧
      (assess_violation_risk a).confidence = 7/10) ∧
    (a.overall_compliance.overall_score < 2/10 →
      (assess_violation_risk a).risk_level = "very_high" ∧
      (assess_violation_risk a).confidence = 9/10) := by
  unfold assess_violation_risk
  dsimp only
  split_ifs with h1 h2 h3 <;>
    refine ⟨rfl, rfl, ?_, ?_, ?_, ?_⟩ <;> intro h <;>
    first
      | exact ⟨rfl, rfl⟩
      | (exfalso; linarith)

/-- Claim C10: every risk assessment confidence lies in the set
(0.7, 0.8, 0.9), hence always clears the 0.7 threshold of the gate, so on a
bundle produced by the analyzer's success path the suppression gate is
equivalent to the risk level being low or medium. -/
theorem claim_C10_confidence_redundant (f : Frame) (o : Oracle)
    (hist : List AnalysisResult) (a : AnalysisResult) :
    ((assess_violation_risk a).confidence = 7/10 ∨
     (assess_violation_risk a).confidence = 8/10 ∨
     (assess_violation_risk a).confidence = 9/10) ∧
    7/10 ≤ (assess_violation_risk a).confidence ∧
    (is_black_or_invalid_frame f = false →
      (should_suppress_violations
          (some (analyze_secondary_camera_frame (.ok f) o hist).1) = true ↔
        ((analyze_secondary_camera_frame (.ok f) o hist).1.violation_prevention.risk_level = "low" ∨
         (analyze_secondary_camera_frame (.ok f) o hist).1.violation_prevention.risk_level = "medium"))) := by
  refine ⟨?_, assess_violation_risk_confidence_ge a, ?_⟩
  · unfold assess_violation_risk
    dsimp only
    split_ifs <;> simp
  · intro hf
    apply gate_of_confident
    simp only [analyze_secondary_camera_frame, hf]
    exact assess_violation_risk_confidence_ge _

/-- Claim C3: a frame that decodes but has mean brightness below 10 or
grayscale variance below 10 short-circuits the analyzer: no detector output
influences the result, the history is left untouched, and the returned
bundle is the fixed black-screen bundle with status success, overall score
0, overall status black_screen, risk very_high and confidence 0.9. -/
theorem claim_C3_black_short_circuit (f : Frame) (o : Oracle)
    (hist : List AnalysisResult)
    (hdeg : meanBrightness f < 10 ∨ grayVariance f < 10) :
    (analyze_secondary_camera_frame (.ok f) o hist).1 = blackScreenBundle ∧
    (analyze_secondary_camera_frame (.ok f) o hist).2 = hist ∧
    blackScreenBundle.status = "success" ∧
    blackScreenBundle.analysis = some blackScreenAnalysis ∧
    blackScreenAnalysis.overall_compliance.overall_score = 0 ∧
    blackScreenAnalysis.overall_compliance.status = "black_screen" ∧
    blackScreenBundle.violation_prevention.risk_level = "very_high" ∧
    blackScreenBundle.violation_prevention.confidence = 9/10 := by
  have hb : is_black_or_invalid_frame f = true := by
    unfold is_black_or_invalid_frame
    rcases hdeg with h | h <;> simp [h]
  refine ⟨?_, ?_, rfl, rfl, rfl, rfl, rfl, rfl⟩ <;>
    simp [analyze_secondary_camera_frame, hb]

/-- Witness for claim C3 at a concrete all-black frame. -/
theorem claim_C3_black_short_circuit_witness :
    (analyze_secondary_camera_frame (.ok blackFrame) noTypingOracle []).1 =
      blackScreenBundle :=
  (claim_C3_black_short_circuit blackFrame noTypingOracle []
    (Or.inl (by norm_num [meanBrightness, channelSum, blackFrame]))).1

/-- Claim C8: the analyzer is total — every input yields a bundle whose
status is success or error; a decode failure yields exactly the fixed error
bundle (status error, null analysis, a nonempty recommendation list, and an
unknown risk assessment at confidence 0), and every decoded frame yields a
success bundle regardless of detector-stage exceptions. -/
theorem claim_C8_never_raises (frameE : Except String Frame) (o : Oracle)
    (hist : List AnalysisResult) :
    ((analyze_secondary_camera_frame frameE o hist).1.status = "success" ∨
     (analyze_secondary_camera_frame frameE o hist).1.status = "error") ∧
    (∀ e : String, frameE = .error e →
      (analyze_secondary_camera_frame frameE o hist).1 = errorBundle e ∧
      (errorBundle e).status = "error" ∧
      (errorBundle e).analysis = none ∧
      (errorBundle e).recommendations ≠ [] ∧
      (errorBundle e).violation_prevention.risk_level = "unknown" ∧
      (errorBundle e).violation_prevention.confidence = 0) ∧
    (∀ f : Frame, frameE = .ok f →
      (analyze_secondary_camera_frame frameE o hist).1.status = "success") := by
  rcases frameE with e | f
  · refine ⟨Or.inr rfl, ?_, ?_⟩
    · intro e' he
      cases he
      exact ⟨rfl, rfl, rfl, by simp [errorBundle], rfl, rfl⟩
    · intro f hf
      cases hf
  · have hs : (analyze_secondary_camera_frame (.ok f) o hist).1.status = "success" := by
      by_cases hb : is_black_or_invalid_frame f = true <;>
        simp [analyze_secondary_camera_frame, hb] <;> rfl
    refine ⟨Or.inl hs, ?_, fun _ _ => hs⟩
    intro e' he
    cases he

/-- Claim C6: the hand-placement confidence always lies in the set
(0, 0.7, 0.9) — 0.9 for visible hands in typing position, 0.7 for
visible hands out of typing position, and 0 otherwise, the internal
exception path included — and it is 0 exactly when hands are not visible. -/
theorem claim_C6_hand_confidence (f : Frame) (o : HandOracle) :
    ((analyze_hand_placement f o).confidence = 0 ∨
     (analyze_hand_placement f o).confidence = 7/10 ∨
     (analyze_hand_placement f o).confidence = 9/10) ∧
    ((analyze_hand_placement f o).hands_visible = true ∧
        (analyze_hand_placement f o).hands_in_typing_position = true →
      (analyze_hand_placement f o).confidence = 9/10) ∧
    ((analyze_hand_placement f o).hands_visible = true ∧
        (analyze_hand_placement f o).hands_in_typing_position = false →
      (analyze_hand_placement f o).confidence = 7/10) ∧
    ((analyze_hand_placement f o).confidence = 0 ↔
      (analyze_hand_placement f o).hands_visible = false) := by
  rcases he : o.err with _ | e
  · simp only [analyze_hand_placement, he]
    dsimp only
    split_ifs with h1 h2 <;> simp_all
  · simp [analyze_hand_placement, he]

/-- Claim C9: whenever the keyboard stage completes without an internal
exception, the hand-inference fallback makes `keyboard_visible` true
unconditionally; the violation generator emits
`secondary_camera_keyboard_not_visible` exactly when `keyboard_visible` is
false, which is therefore reachable only through the stage's exception path
or the black-screen bundle — and the black-screen bundle does emit it. -/
theorem claim_C9_fallback_unconditional :
    (∀ (f : Frame) (o : KeyboardOracle), o.err = none →
      (analyze_keyboard_visibility f o).keyboard_visible = true) ∧
    (∀ a : AnalysisResult,
      ((violationRules a).any
          (fun v => v.vtype = "secondary_camera_keyboard_not_visible")) = true ↔
        a.keyboard_visibility.keyboard_visible = false) ∧
    ((generate_secondary_camera_violations blackScreenBundle).any
        (fun v => v.vtype = "secondary_camera_keyboard_not_visible")) = true := by
  refine ⟨?_, ?_, ?_⟩
  · intro f o he
    obtain ⟨dets, oerr, contours, err⟩ := o
    cases he
    dsimp only [analyze_keyboard_visibility]
    split_ifs <;> simp_all
  · intro a
    unfold violationRules
    split_ifs <;> simp_all
  · norm_num [generate_secondary_camera_violations, blackScreenBundle,
      blackScreenAnalysis, violationRules]

/-- Claim C2, evaluated at the failing input: on a decoded, non-degenerate
frame with visible hands that are NOT in typing position and with neither
keyboard-detection source firing, the code still applies the hand-inference
fallback — `keyboard_visible` comes out true with the fixed fallback region,
and no `secondary_camera_keyboard_not_visible` violation is emitted,
contradicting the hand-conditioned fallback the spec (and the code's own
comments) describe. -/
theorem claim_C2_fallback_ignores_hand_position :
    (analyze_hand_placement demoFrame noTypingHandOracle).hands_visible = true ∧
    (analyze_hand_placement demoFrame noTypingHandOracle).hands_in_typing_position
      = false ∧
    keyboard_detections_of emptyKeyboardOracle = [] ∧
    keyboard_like_regions_of demoFrame emptyKeyboardOracle = [] ∧
    (analyze_keyboard_visibility demoFrame emptyKeyboardOracle).keyboard_visible
      = true ∧
    (analyze_keyboard_visibility demoFrame emptyKeyboardOracle).positioning_score
      = 1/2 ∧
    (analyze_keyboard_visibility demoFrame emptyKeyboardOracle).keyboard_like_regions
      = [hand_inference_region] ∧
    hand_inference_region.detection_method = some "hand_inference" ∧
    hand_inference_region.confidence = 1/2 ∧
    ((generate_secondary_camera_violations
        (analyze_secondary_camera_frame (.ok demoFrame) noTypingOracle []).1).any
      (fun v => v.vtype = "secondary_camera_keyboard_not_visible")) = false := by
  have hdets : keyboard_detections_of emptyKeyboardOracle = [] := by
    simp [keyboard_detections_of, emptyKeyboardOracle]
  have hregs : keyboard_like_regions_of demoFrame emptyKeyboardOracle = [] := by
    simp [keyboard_like_regions_of, emptyKeyboardOracle]
  have hkv : analyze_keyboard_visibility demoFrame emptyKeyboardOracle =
      { keyboard_visible := true, keyboard_detections := [],
        keyboard_like_regions := [hand_inference_region],
        positioning_score := 1/2, confidence := 1/2,
        analysis_quality := "good",
        detection_method := some "keyboard_detection", error := none } := by
    simp only [analyze_keyboard_visibility]
    rw [show emptyKeyboardOracle.err = none from rfl]
    norm_num [hdets, hregs, hand_inference_region]
  have hhand : (analyze_hand_placement demoFrame noTypingHandOracle).hands_visible
        = true ∧
      (analyze_hand_placement demoFrame noTypingHandOracle).hands_in_typing_position
        = false := by
    constructor <;>
      norm_num [analyze_hand_placement, noTypingHandOracle, demoFrame,
        check_typing_position]
  have hnb : is_black_or_invalid_frame demoFrame = false := by
    unfold is_black_or_invalid_frame
    norm_num [meanBrightness, channelSum, demoFrame, grayVariance, grayVal, npVar]
  refine ⟨hhand.1, hhand.2, hdets, hregs, by rw [hkv], by rw [hkv], by rw [hkv],
    rfl, rfl, ?_⟩
  simp only [analyze_secondary_camera_frame, hnb, Bool.false_eq_true, if_false]
  simp only [generate_secondary_camera_violations, noTypingOracle]
  norm_num [violationRules, hkv, hhand.1, hhand.2]
  refine ⟨fun _ => ?_, fun _ => ?_, ?_⟩ <;> decide

/-- Claim C4: when the suppression gate is active for a tick, the pass over
the tick's violations keeps the list whole (same length), tags every
violation not sourced from the secondary camera as suppressed with the fixed
reason, passes secondary-camera violations through unchanged, and the
active_violations view holds exactly the violations not tagged suppressed. -/
theorem claim_C4_suppression_tagging (vs : List Violation) (v : Violation) :
    (applySuppression true vs).length = vs.length ∧
    (v ∈ applySuppression true vs → v.source ≠ some "secondary_camera" →
      v.suppressed = true ∧
      v.suppression_reason = some "secondary_camera_ai_validation") ∧
    (v ∈ vs → v.source = some "secondary_camera" →
      v ∈ applySuppression true vs) ∧
    (v ∈ activeViolations (applySuppression true vs) ↔
      (v ∈ applySuppression true vs ∧ v.suppressed = false)) := by
  refine ⟨?_, ?_, ?_, ?_⟩
  · simp [applySuppression]
  · intro hv hsrc
    simp only [applySuppression, if_true, List.mem_map] at hv
    obtain ⟨u, hu, huv⟩ := hv
    by_cases hus : u.source = some "secondary_camera"
    · rw [if_neg (by simp [hus])] at huv
      rw [← huv] at hsrc
      exact absurd hus hsrc
    · rw [if_pos hus] at huv
      rw [← huv]
      exact ⟨rfl, rfl⟩
  · intro hv hsrc
    simp only [applySuppression, if_true, List.mem_map]
    refine ⟨v, hv, ?_⟩
    rw [if_neg (by simp [hsrc])]
  · simp [activeViolations, List.mem_filter]

/-- Counterexample to claim C7 as stated: the black-screen short-circuit
returns a bundle whose stability_score is 0, not 0.5, even though the
history holds fewer than 3 entries (here: none). -/
theorem claim_C7_counterexample_black_screen :
    (analyze_secondary_camera_frame (.ok blackFrame) noTypingOracle
        []).1.stability_score ≠ some (1/2) ∧
    (analyze_secondary_camera_frame (.ok blackFrame) noTypingOracle
        []).2.length < 3 := by
  have hb : is_black_or_invalid_frame blackFrame = true := by
    unfold is_black_or_invalid_frame
    norm_num [meanBrightness, channelSum, blackFrame]
  constructor
  · simp only [analyze_secondary_camera_frame, hb, if_true, blackScreenBundle]
    norm_num
  · simp [analyze_secondary_camera_frame, hb]

/-- Claim C7 as amended: the history buffer never exceeds 10 entries; the
stability score computed from the history lies in [0, 1], equals 0.5 with
fewer than 3 entries and equals max(0, 1 − 2·variance(last 5 overall
scores)) with at least 3; non-degenerate success bundles return exactly that
value for the post-update history, while the black-screen short-circuit
returns stability_score 0 regardless of the history. -/
theorem claim_C7_history_and_stability (entries : List AnalysisResult)
    (hist : List AnalysisResult) (f : Frame) (o : Oracle) :
    (entries.foldl update_analysis_history []).length ≤ 10 ∧
    0 ≤ calculate_stability_score hist ∧
    calculate_stability_score hist ≤ 1 ∧
    (hist.length < 3 → calculate_stability_score hist = 1/2) ∧
    (3 ≤ hist.length → calculate_stability_score hist =
      max 0 (1 - npVar ((hist.drop (hist.length - 5)).map
        (fun a => a.overall_compliance.overall_score)) * 2)) ∧
    (is_black_or_invalid_frame f = false →
      (analyze_secondary_camera_frame (.ok f) o hist).1.stability_score =
        some (calculate_stability_score
          (analyze_secondary_camera_frame (.ok f) o hist).2)) ∧
    (is_black_or_invalid_frame f = true →
      (analyze_secondary_camera_frame (.ok f) o hist).1.stability_score = some 0) := by
  have hscores : hist.length ≥ 3 →
      ((hist.drop (hist.length - 5)).map
        (fun a => a.overall_compliance.overall_score)).isEmpty = false := by
    intro h3
    have : (hist.drop (hist.length - 5)).length = hist.length - (hist.length - 5) :=
      List.length_drop _ _
    simp only [List.isEmpty_eq_false_iff_exists_mem]
    have hne : hist.drop (hist.length - 5) ≠ [] := by
      intro hnil
      rw [hnil] at this
      simp at this
      omega
    obtain ⟨x, hx⟩ := List.exists_mem_of_ne_nil _ hne
    exact ⟨_, List.mem_map_of_mem _ hx⟩
  refine ⟨?_, ?_, ?_, ?_, ?_, ?_, ?_⟩
  · exact foldl_update_analysis_history_length [] entries (by simp)
  · unfold calculate_stability_score
    dsimp only
    split_ifs <;> norm_num
  · unfold calculate_stability_score
    dsimp only
    split_ifs with h1 h2 <;> try norm_num
    exact npVar_nonneg _
  · intro h3
    unfold calculate_stability_score
    rw [if_pos h3]
  · intro h3
    unfold calculate_stability_score
    rw [if_neg (by omega)]
    dsimp only
    have hEmpty := hscores (by omega)
    rw [if_neg (by rw [hEmpty]; simp)]
  · intro hb
    simp only [analyze_secondary_camera_frame, hb, Bool.false_eq_true, if_false]
  · intro hb
    simp [analyze_secondary_camera_frame, hb, blackScreenBundle]
